import Mathlib

/-!
Shallow embedding of `src/infra/github-runners/lambda/budget_circuit_breaker.py`.

The Lambda fetches three SSM parameters, mints a GitHub App JWT, exchanges it
for an installation token, and PATCHes the repository variable
`SELF_HOSTED_ENABLED` to `"false"`.

External effects (environment reads, SSM fetches, HTTP calls, RS256 signing,
the wall clock) are modelled as oracle fields of a `World` record.  Each
operation runs in a writer-plus-exception monad `M` that records every
attempted external interaction as an `Effect`, so that "this call is never
attempted" claims become statements about the recorded trace.  A raised Python
exception is an `Except.error`; the trace accumulated before the raise is kept,
exactly as the real side effects would already have happened.
-/

/-- Errors a run can raise: Python `KeyError` (missing env var or missing JSON
field), a boto3/SSM failure, `urllib.error.HTTPError` for a non-2xx status,
a network-level `URLError`, and a PyJWT signing failure. -/
inductive Err where
  | keyError (key : String)
  | ssmError (msg : String)
  | httpError (status : Nat)
  | urlError (msg : String)
  | jwtError (msg : String)
deriving DecidableEq

/-- The JWT claims dictionary built by `generate_jwt`:
`{"iat": now - 60, "exp": now + 600, "iss": app_id}`. -/
structure JwtPayload where
  iat : Int
  exp : Int
  iss : String
deriving DecidableEq

/-- An outbound `urllib.request.Request`: method, URL, headers, optional body. -/
structure HttpRequest where
  method : String
  url : String
  headers : List (String × String)
  data : Option String
deriving DecidableEq

/-- An HTTP response: status code and the JSON object obtained by
`json.loads` on the body, modelled as a string-valued association list
(an unparseable or non-object body is the empty list, which in particular
has no `"token"` field). -/
structure HttpResponse where
  status : Nat
  fields : List (String × String)
deriving DecidableEq

/-- One observable external interaction of a run. -/
inductive Effect where
  | envRead (name : String)
  | ssmGet (region : String) (name : String) (decrypt : Bool)
  | jwtSign (payload : JwtPayload)
  | httpCall (req : HttpRequest)
deriving DecidableEq

/-- The oracles a single invocation interacts with: `os.environ`, the SSM
secret store, the HTTP transport (GitHub's API), PyJWT's RS256 signer (which
fails on malformed key material), and `time.time()`. -/
structure World where
  env : String → Option String
  ssm : String → String → Bool → Except Err String
  http : HttpRequest → Except Err HttpResponse
  sign : JwtPayload → String → Except Err String
  now : Int

/-- Trace-collecting exception monad: the effects attempted so far, and either
a value or the raised error. -/
abbrev M (α : Type) : Type := List Effect × Except Err α

/-- Sequencing: an error short-circuits but keeps the trace already produced;
a success appends the continuation's trace. -/
def M.bind {α β : Type} (x : M α) (f : α → M β) : M β :=
  match x with
  | (t, Except.error e) => (t, Except.error e)
  | (t, Except.ok a) => (t ++ (f a).1, (f a).2)

instance : Monad M where
  pure a := ([], Except.ok a)
  bind := M.bind

/-- Raise an error with no further effects. -/
def M.throw {α : Type} (e : Err) : M α := ([], Except.error e)

theorem M.bind_error {α β : Type} (t : List Effect) (e : Err) (f : α → M β) :
    M.bind (t, Except.error e) f = (t, Except.error e) := rfl

theorem M.bind_ok {α β : Type} (t : List Effect) (a : α) (f : α → M β) :
    M.bind (t, Except.ok a) f = (t ++ (f a).1, (f a).2) := rfl

theorem M.bind_eq {α β : Type} (x : M α) (f : α → M β) :
    x >>= f = M.bind x f := rfl

theorem M.pure_eq {α : Type} (a : α) : (pure a : M α) = ([], Except.ok a) := rfl

/-- `os.environ[name]`: records the read; a missing variable raises
`KeyError(name)`. -/
def envGet (w : World) (name : String) : M String :=
  ([Effect.envRead name],
    match w.env name with
    | some v => Except.ok v
    | none => Except.error (Err.keyError name))

/-- `get_ssm_parameter(name, decrypt=False)`: builds a boto3 SSM client for the
region in `APP_AWS_REGION` and returns the parameter's value; `decrypt`
defaults to `False` as in the source. -/
def get_ssm_parameter (w : World) (name : String) (decrypt : Bool := false) :
    M String := do
  let region ← envGet w "APP_AWS_REGION"
  (([Effect.ssmGet region name decrypt], w.ssm region name decrypt) : M String)

/-- The claims dictionary passed to `jwt.encode`:
`{"iat": now - 60, "exp": now + 600, "iss": app_id}`. -/
def jwtPayload (now : Int) (app_id : String) : JwtPayload :=
  { iat := now - 60, exp := now + 600, iss := app_id }

/-- `generate_jwt(app_id, private_key_pem)`: reads the clock once and signs the
payload with RS256 via the private key.  The signing step is recorded in the
trace (it constructs the signed assertion). -/
def generate_jwt (w : World) (app_id : String) (private_key_pem : String) :
    M String :=
  ([Effect.jwtSign (jwtPayload w.now app_id)],
    w.sign (jwtPayload w.now app_id) private_key_pem)

/-- Is an HTTP status a success for `urllib.request.urlopen` (which raises
`HTTPError` outside the 2xx range after redirect handling)? -/
def httpOk (status : Nat) : Bool := 200 ≤ status && status < 300

/-- `urllib.request.urlopen(req)`: records the attempt, then either fails at
the network level, raises `HTTPError` on a non-2xx status, or returns the
response. -/
def urlopen (w : World) (req : HttpRequest) : M HttpResponse :=
  ([Effect.httpCall req],
    match w.http req with
    | Except.error e => Except.error e
    | Except.ok resp =>
      if httpOk resp.status then Except.ok resp
      else Except.error (Err.httpError resp.status))

/-- The POST request built by `get_installation_token`. -/
def tokenPostRequest (jwt_token : String) (installation_id : String) :
    HttpRequest :=
  { method := "POST"
    url := "https://api.github.com/app/installations/" ++ installation_id ++
      "/access_tokens"
    headers :=
      [("Authorization", "Bearer " ++ jwt_token),
       ("Accept", "application/vnd.github+json"),
       ("X-GitHub-Api-Version", "2022-11-28")]
    data := none }

/-- Python dictionary subscription `obj[key]` on a parsed JSON object:
raises `KeyError(key)` when absent. -/
def dictGet (fields : List (String × String)) (key : String) : M String :=
  match fields.lookup key with
  | some v => pure v
  | none => M.throw (Err.keyError key)

/-- `get_installation_token(jwt_token, installation_id)`: one POST to the
installation access-tokens endpoint; returns `json.loads(resp.read())["token"]`,
raising `KeyError("token")` when the field is absent. -/
def get_installation_token (w : World) (jwt_token : String)
    (installation_id : String) : M String := do
  let resp ← urlopen w (tokenPostRequest jwt_token installation_id)
  dictGet resp.fields "token"

/-- `json.dumps({"value": "false"})`. -/
def jsonValueFalse : String := "\x7b\"value\": \"false\"\x7d"

/-- The PATCH request built by `disable_self_hosted_runners`. -/
def flagWriteRequest (token : String) (owner : String) (repo : String) :
    HttpRequest :=
  { method := "PATCH"
    url := "https://api.github.com/repos/" ++ owner ++ "/" ++ repo ++
      "/actions/variables/SELF_HOSTED_ENABLED"
    headers :=
      [("Authorization", "Bearer " ++ token),
       ("Accept", "application/vnd.github+json"),
       ("Content-Type", "application/json"),
       ("X-GitHub-Api-Version", "2022-11-28")]
    data := some jsonValueFalse }

/-- `disable_self_hosted_runners(token, owner, repo)`: one PATCH setting the
repository variable `SELF_HOSTED_ENABLED` to `"false"`; the response is only
logged. -/
def disable_self_hosted_runners (w : World) (token : String) (owner : String)
    (repo : String) : M Unit := do
  let _ ← urlopen w (flagWriteRequest token owner repo)
  pure ()

/-- The Lambda's return value on success. -/
structure HandlerResult where
  statusCode : Nat
  body : String
deriving DecidableEq

/-- `handler(event, context)`: the full orchestration, in source order.  The
event and context are only logged, so they do not appear as inputs. -/
def handler (w : World) : M HandlerResult := do
  let pfx ← envGet w "PREFIX"
  let app_id ← get_ssm_parameter w ("/" ++ pfx ++ "/github-app-id")
  let private_key ← get_ssm_parameter w ("/" ++ pfx ++ "/github-app-key") true
  let installation_id ←
    get_ssm_parameter w ("/" ++ pfx ++ "/github-app-installation-id")
  let jwt_token ← generate_jwt w app_id private_key
  let token ← get_installation_token w jwt_token installation_id
  let owner ← envGet w "GITHUB_OWNER"
  let repo ← envGet w "GITHUB_REPO"
  let _ ← disable_self_hosted_runners w token owner repo
  pure { statusCode := 200, body := "Self-hosted runners disabled" }

/-! ### Concrete worlds

`wOK` realises the end-to-end scenario of the specification: environment
`PREFIX=demo`, `GITHUB_OWNER=acme`, `GITHUB_REPO=ci`, stubbed secrets, a token
endpoint answering `{"token": "tok"}`, and a PATCH endpoint answering 204.
`wBadPost` is `wOK` with the token exchange answering HTTP 500, and `wNoKey`
is `wOK` with the secret store failing on the private-key parameter. -/

def envOK : String → Option String := fun n =>
  if n = "PREFIX" then some "demo"
  else if n = "APP_AWS_REGION" then some "ap-northeast-1"
  else if n = "GITHUB_OWNER" then some "acme"
  else if n = "GITHUB_REPO" then some "ci"
  else none

def ssmOK : String → String → Bool → Except Err String := fun _ name _ =>
  if name = "/demo/github-app-id" then Except.ok "1"
  else if name = "/demo/github-app-key" then Except.ok "PEMKEY"
  else if name = "/demo/github-app-installation-id" then Except.ok "42"
  else Except.error (Err.ssmError name)

def httpRespOK : HttpRequest → Except Err HttpResponse := fun req =>
  if req.method = "POST" then
    Except.ok { status := 201, fields := [("token", "tok")] }
  else Except.ok { status := 204, fields := [] }

def signOK : JwtPayload → String → Except Err String := fun _ _ =>
  Except.ok "signed.jwt"

def wOK : World :=
  { env := envOK, ssm := ssmOK, http := httpRespOK, sign := signOK
    now := 1700000000 }

def wBadPost : World :=
  { env := envOK, ssm := ssmOK, sign := signOK, now := 1700000000
    http := fun req =>
      if req.method = "POST" then Except.ok { status := 500, fields := [] }
      else Except.ok { status := 204, fields := [] } }

def wNoKey : World :=
  { env := envOK, sign := signOK, http := httpRespOK, now := 1700000000
    ssm := fun _ name _ =>
      if name = "/demo/github-app-key" then
        Except.error (Err.ssmError "AccessDeniedException")
      else ssmOK "ap-northeast-1" name false }

/-! ### Component lemmas for the monad and the atomic operations -/

theorem M.bind_fst_of_error {α β : Type} (x : M α) (f : α → M β) (e : Err)
    (h : x.2 = Except.error e) : (M.bind x f).1 = x.1 := by
  obtain ⟨t, r⟩ := x
  cases r <;> simp_all [M.bind]

theorem M.bind_fst_of_ok {α β : Type} (x : M α) (f : α → M β) (a : α)
    (h : x.2 = Except.ok a) : (M.bind x f).1 = x.1 ++ (f a).1 := by
  obtain ⟨t, r⟩ := x
  cases r <;> simp_all [M.bind]

theorem M.bind_snd_of_error {α β : Type} (x : M α) (f : α → M β) (e : Err)
    (h : x.2 = Except.error e) : (M.bind x f).2 = Except.error e := by
  obtain ⟨t, r⟩ := x
  cases r <;> simp_all [M.bind]

theorem M.bind_snd_of_ok {α β : Type} (x : M α) (f : α → M β) (a : α)
    (h : x.2 = Except.ok a) : (M.bind x f).2 = (f a).2 := by
  obtain ⟨t, r⟩ := x
  cases r <;> simp_all [M.bind]

theorem M.bind_fst_pureTail {α β : Type} (x : M α) (b : β) :
    (M.bind x fun _ => (pure b : M β)).1 = x.1 := by
  obtain ⟨t, r⟩ := x
  cases r <;> simp [M.bind, M.pure_eq]

theorem M.bind_snd_ok_iff {α β : Type} (x : M α) (f : α → M β) (b : β) :
    (M.bind x f).2 = Except.ok b ↔
      ∃ a, x.2 = Except.ok a ∧ (f a).2 = Except.ok b := by
  obtain ⟨t, r⟩ := x
  cases r <;> simp [M.bind]

theorem M.mem_bind_fst_iff {α β : Type} (eff : Effect) (x : M α)
    (f : α → M β) :
    eff ∈ (M.bind x f).1 ↔
      eff ∈ x.1 ∨ ∃ a, x.2 = Except.ok a ∧ eff ∈ (f a).1 := by
  obtain ⟨t, r⟩ := x
  cases r <;> simp [M.bind]

theorem envGet_fst (w : World) (n : String) :
    (envGet w n).1 = [Effect.envRead n] := rfl

theorem envGet_snd_ok_iff (w : World) (n v : String) :
    (envGet w n).2 = Except.ok v ↔ w.env n = some v := by
  cases h : w.env n <;> simp [envGet, h]

theorem urlopen_fst (w : World) (req : HttpRequest) :
    (urlopen w req).1 = [Effect.httpCall req] := rfl

theorem urlopen_snd_ok_iff (w : World) (req : HttpRequest)
    (resp : HttpResponse) :
    (urlopen w req).2 = Except.ok resp ↔
      w.http req = Except.ok resp ∧ httpOk resp.status = true := by
  cases h : w.http req with
  | error e => simp [urlopen, h]
  | ok r0 =>
    by_cases hk : httpOk r0.status
    · rw [urlopen]
      simp only [h, hk, if_true]
      constructor
      · intro he
        cases he
        exact ⟨rfl, hk⟩
      · rintro ⟨hw, _⟩
        cases hw
        rfl
    · rw [urlopen]
      simp only [h, hk, if_false]
      constructor
      · intro he
        cases he
      · rintro ⟨hw, hs⟩
        cases hw
        exact absurd hs hk

theorem dictGet_fst (fields : List (String × String)) (k : String) :
    (dictGet fields k).1 = [] := by
  cases h : fields.lookup k <;> simp [dictGet, h, M.throw, M.pure_eq]

theorem dictGet_snd_ok_iff (fields : List (String × String)) (k v : String) :
    (dictGet fields k).2 = Except.ok v ↔ fields.lookup k = some v := by
  cases h : fields.lookup k <;> simp [dictGet, h, M.throw, M.pure_eq]

theorem generate_jwt_fst (w : World) (a k : String) :
    (generate_jwt w a k).1 = [Effect.jwtSign (jwtPayload w.now a)] := rfl

theorem generate_jwt_snd (w : World) (a k : String) :
    (generate_jwt w a k).2 = w.sign (jwtPayload w.now a) k := rfl

theorem M.pure_snd_ok_iff {α : Type} (a b : α) :
    (pure a : M α).2 = Except.ok b ↔ b = a := by
  simp [M.pure_eq, eq_comm]

/-- Boolean recogniser for SSM-fetch effects. -/
def Effect.isSsmGet : Effect → Bool
  | Effect.ssmGet _ _ _ => true
  | _ => false

/-- A pinned successful run: with every oracle answer fixed, the handler's
trace is exactly the source's interaction sequence, in order (the outcome of
the final PATCH does not change the trace). -/
theorem handler_trace_full (w : World) (pfx region o r a1 a2 a3 s tok : String)
    (resp : HttpResponse)
    (hp : w.env "PREFIX" = some pfx)
    (hr : w.env "APP_AWS_REGION" = some region)
    (h1 : w.ssm region ("/" ++ pfx ++ "/github-app-id") false = Except.ok a1)
    (h2 : w.ssm region ("/" ++ pfx ++ "/github-app-key") true = Except.ok a2)
    (h3 : w.ssm region ("/" ++ pfx ++ "/github-app-installation-id") false =
      Except.ok a3)
    (hs : w.sign (jwtPayload w.now a1) a2 = Except.ok s)
    (hresp : w.http (tokenPostRequest s a3) = Except.ok resp)
    (hok : httpOk resp.status = true)
    (ht : resp.fields.lookup "token" = some tok)
    (ho : w.env "GITHUB_OWNER" = some o)
    (hrep : w.env "GITHUB_REPO" = some r) :
    (handler w).1 =
      [Effect.envRead "PREFIX",
       Effect.envRead "APP_AWS_REGION",
       Effect.ssmGet region ("/" ++ pfx ++ "/github-app-id") false,
       Effect.envRead "APP_AWS_REGION",
       Effect.ssmGet region ("/" ++ pfx ++ "/github-app-key") true,
       Effect.envRead "APP_AWS_REGION",
       Effect.ssmGet region ("/" ++ pfx ++ "/github-app-installation-id") false,
       Effect.jwtSign (jwtPayload w.now a1),
       Effect.httpCall (tokenPostRequest s a3),
       Effect.envRead "GITHUB_OWNER",
       Effect.envRead "GITHUB_REPO",
       Effect.httpCall (flagWriteRequest tok o r)] := by
  simp only [handler, get_ssm_parameter, get_installation_token,
    disable_self_hosted_runners, M.bind_eq, M.bind_fst_pureTail]
  simp [M.bind, envGet, urlopen, dictGet, generate_jwt,
    hp, hr, h1, h2, h3, hs, hresp, hok, ht, ho, hrep, M.pure_eq]
  rcases hf : w.http (flagWriteRequest tok o r) with e | resp2
  · simp [hf]
  · by_cases hk2 : httpOk resp2.status <;> simp [hf, hk2]

/-- Decomposition of a successful run: the returned value is the success
literal, and every step must have succeeded — all three secret fetches, the
signing, the token exchange (2xx with a token), the owner/repo reads, and the
flag-write PATCH itself (2xx). -/
theorem handler_ok_decomp (w : World) (res : HandlerResult)
    (h : (handler w).2 = Except.ok res) :
    res = { statusCode := 200, body := "Self-hosted runners disabled" } ∧
    ∃ pfx region a1 a2 a3 s resp tok o r resp2,
      w.env "PREFIX" = some pfx ∧
      w.env "APP_AWS_REGION" = some region ∧
      w.ssm region ("/" ++ pfx ++ "/github-app-id") false = Except.ok a1 ∧
      w.ssm region ("/" ++ pfx ++ "/github-app-key") true = Except.ok a2 ∧
      w.ssm region ("/" ++ pfx ++ "/github-app-installation-id") false =
        Except.ok a3 ∧
      w.sign (jwtPayload w.now a1) a2 = Except.ok s ∧
      w.http (tokenPostRequest s a3) = Except.ok resp ∧
      httpOk resp.status = true ∧
      resp.fields.lookup "token" = some tok ∧
      w.env "GITHUB_OWNER" = some o ∧
      w.env "GITHUB_REPO" = some r ∧
      w.http (flagWriteRequest tok o r) = Except.ok resp2 ∧
      httpOk resp2.status = true := by
  simp only [handler, get_ssm_parameter, get_installation_token,
    disable_self_hosted_runners, M.bind_eq, M.bind_snd_ok_iff,
    envGet_snd_ok_iff, urlopen_snd_ok_iff, dictGet_snd_ok_iff,
    generate_jwt_snd, M.pure_snd_ok_iff] at h
  simp at h
  obtain ⟨pfx, hp, a1, ⟨region, hr, h1⟩, a2, ⟨region2, hr2, h2⟩, a3,
    ⟨region3, hr3, h3⟩, s, hs, tok, ⟨resp, ⟨hresp, hok⟩, ht⟩, u, hu, hres⟩ := h
  obtain ⟨repo, hrep, ⟨resp2, hpatch, hok2⟩, hres⟩ := hres
  rw [hr] at hr2 hr3
  obtain rfl := Option.some.inj hr2
  obtain rfl := Option.some.inj hr3
  exact ⟨hres, pfx, region, a1, a2, a3, s, resp, tok, u, repo, resp2, hp, hr,
    h1, h2, h3, hs, hresp, hok, ht, hu, hrep, hpatch, hok2⟩

/-- A fully pinned successful run returns exactly the success literal. -/
theorem handler_snd_full (w : World) (pfx region o r a1 a2 a3 s tok : String)
    (resp resp2 : HttpResponse)
    (hp : w.env "PREFIX" = some pfx)
    (hr : w.env "APP_AWS_REGION" = some region)
    (h1 : w.ssm region ("/" ++ pfx ++ "/github-app-id") false = Except.ok a1)
    (h2 : w.ssm region ("/" ++ pfx ++ "/github-app-key") true = Except.ok a2)
    (h3 : w.ssm region ("/" ++ pfx ++ "/github-app-installation-id") false =
      Except.ok a3)
    (hs : w.sign (jwtPayload w.now a1) a2 = Except.ok s)
    (hresp : w.http (tokenPostRequest s a3) = Except.ok resp)
    (hok : httpOk resp.status = true)
    (ht : resp.fields.lookup "token" = some tok)
    (ho : w.env "GITHUB_OWNER" = some o)
    (hrep : w.env "GITHUB_REPO" = some r)
    (hpatch : w.http (flagWriteRequest tok o r) = Except.ok resp2)
    (hok2 : httpOk resp2.status = true) :
    (handler w).2 =
      Except.ok { statusCode := 200, body := "Self-hosted runners disabled" } := by
  simp only [handler, get_ssm_parameter, get_installation_token,
    disable_self_hosted_runners, M.bind_eq]
  simp [M.bind, envGet, urlopen, dictGet, generate_jwt, hp, hr, h1, h2, h3,
    hs, hresp, hok, ht, ho, hrep, hpatch, hok2, M.pure_eq]

/-- Decomposition of HTTP attempts: any HTTP request the handler ever issues
is either the token-exchange POST, or the flag-write PATCH — and the latter
only after the POST succeeded with a token in its body. -/
theorem handler_httpCall_decomp (w : World) (req : HttpRequest)
    (h : Effect.httpCall req ∈ (handler w).1) :
    (∃ s a3, req = tokenPostRequest s a3) ∨
    (∃ tok o r s a3 resp, req = flagWriteRequest tok o r ∧
      w.http (tokenPostRequest s a3) = Except.ok resp ∧
      httpOk resp.status = true ∧ resp.fields.lookup "token" = some tok) := by
  simp only [handler, get_ssm_parameter, get_installation_token,
    disable_self_hosted_runners, M.bind_eq, M.mem_bind_fst_iff, envGet_fst,
    urlopen_fst, generate_jwt_fst, dictGet_fst, envGet_snd_ok_iff,
    urlopen_snd_ok_iff, dictGet_snd_ok_iff, generate_jwt_snd,
    M.pure_eq] at h
  simp [M.mem_bind_fst_iff, M.bind_snd_ok_iff, envGet_snd_ok_iff,
    urlopen_snd_ok_iff, dictGet_snd_ok_iff, generate_jwt_snd] at h
  obtain ⟨pfx, hp, a1, ⟨r1, hr1, h1⟩, a2, ⟨r2, hr2, h2⟩, a3, ⟨r3, hr3, h3⟩,
    s, hs, hrest⟩ := h
  rcases hrest with hpost |
    ⟨tok, ⟨resp, ⟨hresp, hok⟩, ht⟩, o, ho, r, hrep, hpatch⟩
  · exact Or.inl ⟨s, a3, hpost⟩
  · exact Or.inr ⟨tok, o, r, s, a3, resp, hpatch, hresp, hok, ht⟩

/-- The application-id parameter path never collides with the private-key
parameter path, whatever the prefix (their lengths differ). -/
theorem appId_key_path_ne (p : String) :
    "/" ++ p ++ "/github-app-id" ≠ "/" ++ p ++ "/github-app-key" := by
  intro h
  have hl := congrArg String.length h
  simp [String.length_append] at hl
  exact absurd hl (by decide)

/-- The installation-id parameter path never collides with the private-key
parameter path, whatever the prefix (their lengths differ). -/
theorem instId_key_path_ne (p : String) :
    "/" ++ p ++ "/github-app-installation-id" ≠
      "/" ++ p ++ "/github-app-key" := by
  intro h
  have hl := congrArg String.length h
  simp [String.length_append] at hl
  exact absurd hl (by decide)

/-! ### Claims -/

/-- C1 (counterexample): the claim "expiry equals issued-at plus 600 seconds"
fails on the code.  At invocation time 1700000000 the minted assertion's
payload has issued-at 1700000000 - 60 but expiry 1700000000 + 600, which is
issued-at + 660, not issued-at + 600. -/
theorem claim_C1_counterexample :
    (generate_jwt wOK "7" "k").1 =
      [Effect.jwtSign (jwtPayload 1700000000 "7")] ∧
    (jwtPayload 1700000000 "7").iat = 1700000000 - 60 ∧
    ¬ (jwtPayload 1700000000 "7").exp = (jwtPayload 1700000000 "7").iat + 600 := by
  refine ⟨rfl, rfl, ?_⟩
  decide

/-- C1 (amended): for every application id, PEM private key, and wall-clock
time, the signed assertion produced by the credential minter has issued-at
equal to invocation time minus 60 seconds and expiry equal to invocation time
plus 600 seconds — that is, issued-at plus 660 seconds. -/
theorem claim_C1 (w : World) (app_id key : String) :
    generate_jwt w app_id key =
      ([Effect.jwtSign (jwtPayload w.now app_id)],
        w.sign (jwtPayload w.now app_id) key) ∧
    (jwtPayload w.now app_id).iat = w.now - 60 ∧
    (jwtPayload w.now app_id).exp = (jwtPayload w.now app_id).iat + 660 ∧
    (jwtPayload w.now app_id).exp = w.now + 600 := by
  refine ⟨rfl, rfl, ?_, rfl⟩
  simp [jwtPayload]
  omega

/-- C5: given a bearer token, owner and repo, the action executor issues
exactly one PATCH request, to the `SELF_HOSTED_ENABLED` variable endpoint of
that repository, with body `{"value": "false"}` and an
`Authorization: Bearer <token>` header. -/
theorem claim_C5 (w : World) (t o r : String) :
    (disable_self_hosted_runners w t o r).1 =
      [Effect.httpCall (flagWriteRequest t o r)] ∧
    flagWriteRequest t o r =
      { method := "PATCH"
        url := "https://api.github.com/repos/" ++ o ++ "/" ++ r ++
          "/actions/variables/SELF_HOSTED_ENABLED"
        headers :=
          [("Authorization", "Bearer " ++ t),
           ("Accept", "application/vnd.github+json"),
           ("Content-Type", "application/json"),
           ("X-GitHub-Api-Version", "2022-11-28")]
        data := some "\x7b\"value\": \"false\"\x7d" } := by
  refine ⟨?_, rfl⟩
  simp only [disable_self_hosted_runners, M.bind_eq, M.bind_fst_pureTail,
    urlopen_fst]

/-- C6: given a signed assertion and an installation id, the token exchanger
performs exactly one POST, to the installation access-tokens endpoint, with an
`Authorization: Bearer <assertion>` header, and returns the `token` field of
the JSON response body. -/
theorem claim_C6 (w : World) (j i tok : String) (resp : HttpResponse)
    (hresp : w.http (tokenPostRequest j i) = Except.ok resp)
    (hok : httpOk resp.status = true)
    (ht : resp.fields.lookup "token" = some tok) :
    (get_installation_token w j i).1 =
      [Effect.httpCall (tokenPostRequest j i)] ∧
    (get_installation_token w j i).2 = Except.ok tok ∧
    tokenPostRequest j i =
      { method := "POST"
        url := "https://api.github.com/app/installations/" ++ i ++
          "/access_tokens"
        headers :=
          [("Authorization", "Bearer " ++ j),
           ("Accept", "application/vnd.github+json"),
           ("X-GitHub-Api-Version", "2022-11-28")]
        data := none } := by
  refine ⟨?_, ?_, rfl⟩ <;>
    simp [get_installation_token, M.bind_eq, M.bind, urlopen, dictGet,
      hresp, hok, ht, M.pure_eq]

/-- C6 witness: in the concrete scenario world the token exchanger issues the
one POST and returns `tok`. -/
theorem claim_C6_witness :
    (get_installation_token wOK "signed.jwt" "42").1 =
      [Effect.httpCall (tokenPostRequest "signed.jwt" "42")] ∧
    (get_installation_token wOK "signed.jwt" "42").2 = Except.ok "tok" ∧
    tokenPostRequest "signed.jwt" "42" =
      { method := "POST"
        url := "https://api.github.com/app/installations/" ++ "42" ++
          "/access_tokens"
        headers :=
          [("Authorization", "Bearer " ++ "signed.jwt"),
           ("Accept", "application/vnd.github+json"),
           ("X-GitHub-Api-Version", "2022-11-28")]
        data := none } :=
  claim_C6 wOK "signed.jwt" "42" "tok"
    { status := 201, fields := [("token", "tok")] } rfl rfl rfl

/-- C9: the credential minter is deterministic — two invocations with the
same application id, the same private key, the same wall-clock time, and the
same (deterministic RS256) signing primitive produce the identical signed
assertion, whatever else differs between the two worlds. -/
theorem claim_C9 (w1 w2 : World) (app_id key : String)
    (hnow : w1.now = w2.now) (hsign : w1.sign = w2.sign) :
    generate_jwt w1 app_id key = generate_jwt w2 app_id key := by
  simp [generate_jwt, jwtPayload, hnow, hsign]

/-- A world agreeing with `wOK` on the clock and the signer but differing
everywhere else. -/
def wOtherEnv : World :=
  { wOK with
    env := fun _ => none
    ssm := fun _ n _ => Except.error (Err.ssmError n)
    http := fun _ => Except.error (Err.urlError "refused") }

/-- C9 witness: `wOK` and `wOtherEnv` share clock and signer, so the minted
assertion is identical. -/
theorem claim_C9_witness :
    generate_jwt wOK "1" "PEMKEY" = generate_jwt wOtherEnv "1" "PEMKEY" :=
  claim_C9 wOK wOtherEnv "1" "PEMKEY" rfl rfl

/-- C2: if every token-exchange POST the handler could issue comes back with a
non-success HTTP status or a body without a `token` field, the invocation
raises (returns no success value) and the flag-write PATCH is never attempted. -/
theorem claim_C2 (w : World)
    (h : ∀ req : HttpRequest, req.method = "POST" →
      ∃ resp, w.http req = Except.ok resp ∧
        (httpOk resp.status = false ∨ resp.fields.lookup "token" = none)) :
    (∃ e, (handler w).2 = Except.error e) ∧
    ∀ req : HttpRequest, Effect.httpCall req ∈ (handler w).1 →
      req.method ≠ "PATCH" := by
  constructor
  · cases hres : (handler w).2 with
    | error e => exact ⟨e, rfl⟩
    | ok res =>
      exfalso
      obtain ⟨-, pfx, region, a1, a2, a3, s, resp, tok, _, _, _, -, -, -, -,
        -, -, hresp, hok, ht, -, -, -, -⟩ := handler_ok_decomp w res hres
      obtain ⟨resp2, hresp2, hbad⟩ := h (tokenPostRequest s a3) rfl
      rw [hresp] at hresp2
      obtain rfl := Except.ok.inj hresp2
      rcases hbad with hb | hb
      · simp [hok] at hb
      · simp [ht] at hb
  · intro req hmem hpatch
    rcases handler_httpCall_decomp w req hmem with ⟨s, a3, rfl⟩ |
      ⟨tok, o, r, s, a3, resp, rfl, hresp, hok, ht⟩
    · simp [tokenPostRequest] at hpatch
    · obtain ⟨resp2, hresp2, hbad⟩ := h (tokenPostRequest s a3) rfl
      rw [hresp] at hresp2
      obtain rfl := Except.ok.inj hresp2
      rcases hbad with hb | hb
      · simp [hok] at hb
      · simp [ht] at hb

/-- C2 witness: in `wBadPost` the token exchange answers HTTP 500, the
invocation fails, and no PATCH is ever attempted. -/
theorem claim_C2_witness :
    (∃ e, (handler wBadPost).2 = Except.error e) ∧
    ∀ req : HttpRequest, Effect.httpCall req ∈ (handler wBadPost).1 →
      req.method ≠ "PATCH" :=
  claim_C2 wBadPost (fun req hm =>
    ⟨{ status := 500, fields := [] }, by simp [wBadPost, hm], Or.inl rfl⟩)

/-- C3: if the secret store fails on any one of the three required parameters,
the handler aborts with that store error, no HTTP call to the remote authority
is ever attempted, and no signed assertion is constructed. -/
theorem claim_C3 (w : World) (pfx region : String)
    (hp : w.env "PREFIX" = some pfx)
    (hr : w.env "APP_AWS_REGION" = some region)
    (h : (∃ e, w.ssm region ("/" ++ pfx ++ "/github-app-id") false =
            Except.error e) ∨
         (∃ e, w.ssm region ("/" ++ pfx ++ "/github-app-key") true =
            Except.error e) ∨
         (∃ e, w.ssm region ("/" ++ pfx ++ "/github-app-installation-id")
            false = Except.error e)) :
    (∃ name decrypt e, w.ssm region name decrypt = Except.error e ∧
      (handler w).2 = Except.error e) ∧
    (∀ req : HttpRequest, ¬ Effect.httpCall req ∈ (handler w).1) ∧
    (∀ p : JwtPayload, ¬ Effect.jwtSign p ∈ (handler w).1) := by
  rcases hS1 : w.ssm region ("/" ++ pfx ++ "/github-app-id") false with e1 | a1
  · refine ⟨⟨_, _, e1, hS1, ?_⟩, fun req => ?_, fun p => ?_⟩ <;>
      simp [handler, get_ssm_parameter, M.bind_eq, M.bind, envGet,
        hp, hr, hS1]
  rcases hS2 : w.ssm region ("/" ++ pfx ++ "/github-app-key") true with e2 | a2
  · refine ⟨⟨_, _, e2, hS2, ?_⟩, fun req => ?_, fun p => ?_⟩ <;>
      simp [handler, get_ssm_parameter, M.bind_eq, M.bind, envGet,
        hp, hr, hS1, hS2]
  rcases hS3 : w.ssm region ("/" ++ pfx ++ "/github-app-installation-id")
      false with e3 | a3
  · refine ⟨⟨_, _, e3, hS3, ?_⟩, fun req => ?_, fun p => ?_⟩ <;>
      simp [handler, get_ssm_parameter, M.bind_eq, M.bind, envGet,
        hp, hr, hS1, hS2, hS3]
  · exfalso
    rcases h with ⟨e, he⟩ | ⟨e, he⟩ | ⟨e, he⟩
    · rw [hS1] at he; cases he
    · rw [hS2] at he; cases he
    · rw [hS3] at he; cases he

/-- C3 witness: in `wNoKey` the private-key parameter fetch fails; the
invocation aborts with the store error, with no HTTP call and no assertion. -/
theorem claim_C3_witness :
    (∃ name decrypt e, wNoKey.ssm "ap-northeast-1" name decrypt =
        Except.error e ∧ (handler wNoKey).2 = Except.error e) ∧
    (∀ req : HttpRequest, ¬ Effect.httpCall req ∈ (handler wNoKey).1) ∧
    (∀ p : JwtPayload, ¬ Effect.jwtSign p ∈ (handler wNoKey).1) :=
  claim_C3 wNoKey "demo" "ap-northeast-1" rfl rfl
    (Or.inr (Or.inl ⟨Err.ssmError "AccessDeniedException", rfl⟩))

/-- C4: in any world in which all three secret fetches, the signing, the
token exchange, the owner/repo reads, and the flag-write call succeed (pinned
by the hypotheses), the handler returns exactly
`{statusCode: 200, body: "Self-hosted runners disabled"}`; and conversely, in
every world, a returned success value is that exact literal and forces every
step — including the flag-write PATCH — to have succeeded, so no failing run
ever returns a success value or a structured error body. -/
theorem claim_C4 (w : World) (pfx region o r a1 a2 a3 s tok : String)
    (resp resp2 : HttpResponse)
    (hp : w.env "PREFIX" = some pfx)
    (hr : w.env "APP_AWS_REGION" = some region)
    (h1 : w.ssm region ("/" ++ pfx ++ "/github-app-id") false = Except.ok a1)
    (h2 : w.ssm region ("/" ++ pfx ++ "/github-app-key") true = Except.ok a2)
    (h3 : w.ssm region ("/" ++ pfx ++ "/github-app-installation-id") false =
      Except.ok a3)
    (hs : w.sign (jwtPayload w.now a1) a2 = Except.ok s)
    (hresp : w.http (tokenPostRequest s a3) = Except.ok resp)
    (hok : httpOk resp.status = true)
    (ht : resp.fields.lookup "token" = some tok)
    (ho : w.env "GITHUB_OWNER" = some o)
    (hrep : w.env "GITHUB_REPO" = some r)
    (hpatch : w.http (flagWriteRequest tok o r) = Except.ok resp2)
    (hok2 : httpOk resp2.status = true) :
    (handler w).2 =
      Except.ok { statusCode := 200, body := "Self-hosted runners disabled" } ∧
    ∀ w' : World, ∀ res : HandlerResult, (handler w').2 = Except.ok res →
      res = { statusCode := 200, body := "Self-hosted runners disabled" } ∧
      ∃ pfx2 region2 b1 b2 b3 s2 tok2 o2 r2 : String,
      ∃ respA respB : HttpResponse,
        w'.env "PREFIX" = some pfx2 ∧
        w'.env "APP_AWS_REGION" = some region2 ∧
        w'.ssm region2 ("/" ++ pfx2 ++ "/github-app-id") false =
          Except.ok b1 ∧
        w'.ssm region2 ("/" ++ pfx2 ++ "/github-app-key") true =
          Except.ok b2 ∧
        w'.ssm region2 ("/" ++ pfx2 ++ "/github-app-installation-id") false =
          Except.ok b3 ∧
        w'.sign (jwtPayload w'.now b1) b2 = Except.ok s2 ∧
        w'.http (tokenPostRequest s2 b3) = Except.ok respA ∧
        httpOk respA.status = true ∧
        respA.fields.lookup "token" = some tok2 ∧
        w'.env "GITHUB_OWNER" = some o2 ∧
        w'.env "GITHUB_REPO" = some r2 ∧
        w'.http (flagWriteRequest tok2 o2 r2) = Except.ok respB ∧
        httpOk respB.status = true := by
  refine ⟨handler_snd_full w pfx region o r a1 a2 a3 s tok resp resp2
    hp hr h1 h2 h3 hs hresp hok ht ho hrep hpatch hok2, ?_⟩
  intro w2 res hres
  obtain ⟨hlit, pfx2, region2, b1, b2, b3, s2, respA, tok2, o2, r2, respB,
    hp2, hr2, hb1, hb2, hb3, hs2, hrespA, hokA, ht2, ho2, hrep2, hpatch2,
    hok2b⟩ := handler_ok_decomp w2 res hres
  exact ⟨hlit, pfx2, region2, b1, b2, b3, s2, tok2, o2, r2, respA, respB,
    hp2, hr2, hb1, hb2, hb3, hs2, hrespA, hokA, ht2, ho2, hrep2, hpatch2,
    hok2b⟩

/-- C4 witness: the scenario world satisfies every success hypothesis and the
handler returns exactly the success literal there. -/
theorem claim_C4_witness :
    (handler wOK).2 =
      Except.ok { statusCode := 200, body := "Self-hosted runners disabled" } ∧
    ∀ w' : World, ∀ res : HandlerResult, (handler w').2 = Except.ok res →
      res = { statusCode := 200, body := "Self-hosted runners disabled" } ∧
      ∃ pfx2 region2 b1 b2 b3 s2 tok2 o2 r2 : String,
      ∃ respA respB : HttpResponse,
        w'.env "PREFIX" = some pfx2 ∧
        w'.env "APP_AWS_REGION" = some region2 ∧
        w'.ssm region2 ("/" ++ pfx2 ++ "/github-app-id") false =
          Except.ok b1 ∧
        w'.ssm region2 ("/" ++ pfx2 ++ "/github-app-key") true =
          Except.ok b2 ∧
        w'.ssm region2 ("/" ++ pfx2 ++ "/github-app-installation-id") false =
          Except.ok b3 ∧
        w'.sign (jwtPayload w'.now b1) b2 = Except.ok s2 ∧
        w'.http (tokenPostRequest s2 b3) = Except.ok respA ∧
        httpOk respA.status = true ∧
        respA.fields.lookup "token" = some tok2 ∧
        w'.env "GITHUB_OWNER" = some o2 ∧
        w'.env "GITHUB_REPO" = some r2 ∧
        w'.http (flagWriteRequest tok2 o2 r2) = Except.ok respB ∧
        httpOk respB.status = true :=
  claim_C4 wOK "demo" "ap-northeast-1" "acme" "ci" "1" "PEMKEY" "42"
    "signed.jwt" "tok" { status := 201, fields := [("token", "tok")] }
    { status := 204, fields := [] }
    rfl rfl rfl rfl rfl rfl rfl rfl rfl rfl rfl rfl rfl

/-- C7: for every value of the naming-prefix environment variable, a run in
which the oracles answer (pinned by the hypotheses) performs exactly the three
secret fetches `/{prefix}/github-app-id`, `/{prefix}/github-app-key`,
`/{prefix}/github-app-installation-id`, in that order and no others, and reads
the repository owner and name from the environment. -/
theorem claim_C7 (w : World) (pfx region o r a1 a2 a3 s tok : String)
    (resp : HttpResponse)
    (hp : w.env "PREFIX" = some pfx)
    (hr : w.env "APP_AWS_REGION" = some region)
    (h1 : w.ssm region ("/" ++ pfx ++ "/github-app-id") false = Except.ok a1)
    (h2 : w.ssm region ("/" ++ pfx ++ "/github-app-key") true = Except.ok a2)
    (h3 : w.ssm region ("/" ++ pfx ++ "/github-app-installation-id") false =
      Except.ok a3)
    (hs : w.sign (jwtPayload w.now a1) a2 = Except.ok s)
    (hresp : w.http (tokenPostRequest s a3) = Except.ok resp)
    (hok : httpOk resp.status = true)
    (ht : resp.fields.lookup "token" = some tok)
    (ho : w.env "GITHUB_OWNER" = some o)
    (hrep : w.env "GITHUB_REPO" = some r) :
    (handler w).1.filter Effect.isSsmGet =
      [Effect.ssmGet region ("/" ++ pfx ++ "/github-app-id") false,
       Effect.ssmGet region ("/" ++ pfx ++ "/github-app-key") true,
       Effect.ssmGet region ("/" ++ pfx ++ "/github-app-installation-id")
         false] ∧
    Effect.envRead "GITHUB_OWNER" ∈ (handler w).1 ∧
    Effect.envRead "GITHUB_REPO" ∈ (handler w).1 := by
  rw [handler_trace_full w pfx region o r a1 a2 a3 s tok resp
    hp hr h1 h2 h3 hs hresp hok ht ho hrep]
  refine ⟨?_, ?_, ?_⟩ <;> simp [Effect.isSsmGet, List.filter]

/-- C7 witness: the scenario world performs exactly the three fetches under
prefix `demo` and reads `GITHUB_OWNER` and `GITHUB_REPO`. -/
theorem claim_C7_witness :
    (handler wOK).1.filter Effect.isSsmGet =
      [Effect.ssmGet "ap-northeast-1" ("/" ++ "demo" ++ "/github-app-id")
         false,
       Effect.ssmGet "ap-northeast-1" ("/" ++ "demo" ++ "/github-app-key")
         true,
       Effect.ssmGet "ap-northeast-1"
         ("/" ++ "demo" ++ "/github-app-installation-id") false] ∧
    Effect.envRead "GITHUB_OWNER" ∈ (handler wOK).1 ∧
    Effect.envRead "GITHUB_REPO" ∈ (handler wOK).1 :=
  claim_C7 wOK "demo" "ap-northeast-1" "acme" "ci" "1" "PEMKEY" "42"
    "signed.jwt" "tok" { status := 201, fields := [("token", "tok")] }
    rfl rfl rfl rfl rfl rfl rfl rfl rfl rfl rfl

/-- C8: every HTTP request the handler ever issues whose method is PATCH has
the literal body `{"value": "false"}` and targets some repository's
`SELF_HOSTED_ENABLED` actions-variable endpoint — no execution path writes any
other value or any other variable. -/
theorem claim_C8 (w : World) (req : HttpRequest)
    (hmem : Effect.httpCall req ∈ (handler w).1)
    (hpatch : req.method = "PATCH") :
    req.data = some "\x7b\"value\": \"false\"\x7d" ∧
    ∃ o r, req.url = "https://api.github.com/repos/" ++ o ++ "/" ++ r ++
      "/actions/variables/SELF_HOSTED_ENABLED" := by
  rcases handler_httpCall_decomp w req hmem with ⟨s, a3, rfl⟩ |
    ⟨tok, o, r, s, a3, resp, rfl, -, -, -⟩
  · simp [tokenPostRequest] at hpatch
  · exact ⟨rfl, o, r, rfl⟩

/-- C8 witness: the PATCH issued in the scenario world carries the
`{"value": "false"}` body and targets `acme/ci`'s `SELF_HOSTED_ENABLED`. -/
theorem claim_C8_witness :
    (flagWriteRequest "tok" "acme" "ci").data =
      some "\x7b\"value\": \"false\"\x7d" ∧
    ∃ o r, (flagWriteRequest "tok" "acme" "ci").url =
      "https://api.github.com/repos/" ++ o ++ "/" ++ r ++
        "/actions/variables/SELF_HOSTED_ENABLED" :=
  claim_C8 wOK (flagWriteRequest "tok" "acme" "ci")
    (by
      rw [handler_trace_full wOK "demo" "ap-northeast-1" "acme" "ci" "1"
        "PEMKEY" "42" "signed.jwt" "tok"
        { status := 201, fields := [("token", "tok")] }
        rfl rfl rfl rfl rfl rfl rfl rfl rfl rfl rfl]
      simp)
    rfl

/-- C10: of the three secret fetches a (pinned) run performs, exactly the
private-key parameter `/{prefix}/github-app-key` is requested with decryption
enabled; the application-id and installation-id parameters are fetched with
decryption disabled. -/
theorem claim_C10 (w : World) (pfx region o r a1 a2 a3 s tok : String)
    (resp : HttpResponse)
    (hp : w.env "PREFIX" = some pfx)
    (hr : w.env "APP_AWS_REGION" = some region)
    (h1 : w.ssm region ("/" ++ pfx ++ "/github-app-id") false = Except.ok a1)
    (h2 : w.ssm region ("/" ++ pfx ++ "/github-app-key") true = Except.ok a2)
    (h3 : w.ssm region ("/" ++ pfx ++ "/github-app-installation-id") false =
      Except.ok a3)
    (hs : w.sign (jwtPayload w.now a1) a2 = Except.ok s)
    (hresp : w.http (tokenPostRequest s a3) = Except.ok resp)
    (hok : httpOk resp.status = true)
    (ht : resp.fields.lookup "token" = some tok)
    (ho : w.env "GITHUB_OWNER" = some o)
    (hrep : w.env "GITHUB_REPO" = some r) :
    (handler w).1.filter Effect.isSsmGet =
      [Effect.ssmGet region ("/" ++ pfx ++ "/github-app-id") false,
       Effect.ssmGet region ("/" ++ pfx ++ "/github-app-key") true,
       Effect.ssmGet region ("/" ++ pfx ++ "/github-app-installation-id")
         false] ∧
    ∀ reg name decrypt, Effect.ssmGet reg name decrypt ∈ (handler w).1 →
      (decrypt = true ↔ name = "/" ++ pfx ++ "/github-app-key") := by
  rw [handler_trace_full w pfx region o r a1 a2 a3 s tok resp
    hp hr h1 h2 h3 hs hresp hok ht ho hrep]
  constructor
  · simp [Effect.isSsmGet, List.filter]
  · intro reg name decrypt hmem
    simp at hmem
    rcases hmem with ⟨-, hn, hd⟩ | ⟨-, hn, hd⟩ | ⟨-, hn, hd⟩
    · subst hn; subst hd
      simp [appId_key_path_ne pfx]
    · subst hn; subst hd
      simp
    · subst hn; subst hd
      simp [instId_key_path_ne pfx]

/-- C10 witness: in the scenario world only `/demo/github-app-key` is fetched
with decryption. -/
theorem claim_C10_witness :
    (handler wOK).1.filter Effect.isSsmGet =
      [Effect.ssmGet "ap-northeast-1" ("/" ++ "demo" ++ "/github-app-id")
         false,
       Effect.ssmGet "ap-northeast-1" ("/" ++ "demo" ++ "/github-app-key")
         true,
       Effect.ssmGet "ap-northeast-1"
         ("/" ++ "demo" ++ "/github-app-installation-id") false] ∧
    ∀ reg name decrypt, Effect.ssmGet reg name decrypt ∈ (handler wOK).1 →
      (decrypt = true ↔ name = "/" ++ "demo" ++ "/github-app-key") :=
  claim_C10 wOK "demo" "ap-northeast-1" "acme" "ci" "1" "PEMKEY" "42"
    "signed.jwt" "tok" { status := 201, fields := [("token", "tok")] }
    rfl rfl rfl rfl rfl rfl rfl rfl rfl rfl rfl
